import Mathlib

/-!
Verification of the KirokuForms HITL client (`kirokuforms/kirokuforms.py`).

A shallow embedding of the core of the `KirokuFormsHITL` client:

* the transport layer `_request` (retry loop, response-envelope unwrapping),
* the task-lifecycle layer (`create_task` payload assembly and validation,
  `create_verification_task` field synthesis, `get_task_result` polling),
* the LangGraph interrupt adapter built by `create_kiroku_interrupt_handler`.

Python runtime values (JSON-ish data) are embedded as the inductive `Value`;
dictionaries are association lists in insertion order, matching Python's
dict semantics for the operations the client uses (`get`, key insertion,
`{**d, k: v}` spread).  Network effects are made explicit: each embedded
operation takes the sequence of outcomes the HTTP stack / remote service
produces and returns `Except PyError _` in place of raising.
-/

set_option autoImplicit false

namespace KirokuForms

/-- Embedded Python/JSON values.  Floats are carried by their Python `repr`
string: the client never computes with float values, it only stores and
stringifies them (`repr` is injective on floats, and `str(x) = repr(x)`). -/
inductive Value where
  | vNone
  | vBool (b : Bool)
  | vInt (n : Int)
  | vFloat (r : String)
  | vStr (s : String)
  | vList (items : List Value)
  | vObj (entries : List (String × Value))
deriving Repr

/-- A Python dict, as an association list in insertion order. -/
abbrev Dict := List (String × Value)

/-- Python `d.get(k)` / `d.get(k, None)`: first entry with the given key. -/
def dictGet (d : Dict) (k : String) : Option Value :=
  match d with
  | [] => none
  | (k', v) :: rest => if k' = k then some v else dictGet rest k

/-- Python `d.get(k, default)`. -/
def dictGetD (d : Dict) (k : String) (default : Value) : Value :=
  (dictGet d k).getD default

/-- Python `d[k] = v` (and the effect of `{**d, k: v}`): overwrite in place if the
key is present, otherwise append, preserving insertion order. -/
def dictSet (d : Dict) (k : String) (v : Value) : Dict :=
  match d with
  | [] => [(k, v)]
  | (k', v') :: rest =>
      if k' = k then (k', v) :: rest else (k', v') :: dictSet rest k v

/-- Python truthiness (`bool(x)`).  A float is falsy exactly when it is zero,
whose `repr` is `"0.0"` or `"-0.0"`. -/
def Value.truthy : Value → Bool
  | .vNone => false
  | .vBool b => b
  | .vInt n => n != 0
  | .vFloat r => !(r == "0.0" || r == "-0.0")
  | .vStr s => !(s == "")
  | .vList items => !items.isEmpty
  | .vObj entries => !entries.isEmpty

mutual

/-- Python `repr(x)` (string-escaping inside quotes is not modelled; the
client only ever stringifies identifier-like data). -/
def pyRepr : Value → String
  | .vNone => "None"
  | .vBool b => if b then "True" else "False"
  | .vInt n => toString n
  | .vFloat r => r
  | .vStr s => "'" ++ s ++ "'"
  | .vList items => "[" ++ pyReprList items ++ "]"
  | .vObj entries => "\x7b" ++ pyReprObj entries ++ "\x7d"

/-- Comma-separated `repr`s of list elements. -/
def pyReprList : List Value → String
  | [] => ""
  | [v] => pyRepr v
  | v :: rest => pyRepr v ++ ", " ++ pyReprList rest

/-- Comma-separated `'key': repr(value)` pairs of dict entries. -/
def pyReprObj : List (String × Value) → String
  | [] => ""
  | [(k, v)] => "'" ++ k ++ "': " ++ pyRepr v
  | (k, v) :: rest => "'" ++ k ++ "': " ++ pyRepr v ++ ", " ++ pyReprObj rest

end

/-- Python `str(x)`: like `repr` except on strings, where it is the string
itself. -/
def pyStr : Value → String
  | .vNone => "None"
  | .vBool b => if b then "True" else "False"
  | .vInt n => toString n
  | .vFloat r => r
  | .vStr s => s
  | .vList items => "[" ++ pyReprList items ++ "]"
  | .vObj entries => "\x7b" ++ pyReprObj entries ++ "\x7d"

/-- The exception kinds the client raises or propagates.  `attributeError`
models Python's `AttributeError` when `.get` is called on a non-dict; the
client never catches it. -/
inductive PyError where
  | valueError (msg : String)
  | connectionError (msg : String)
  | timeoutError (msg : String)
  | keyError (k : String)
  | attributeError (attr : String)
deriving Repr, DecidableEq

/-! ## Transport layer: `KirokuFormsHITL._request` -/

/-- What the underlying HTTP stack (`requests.request` followed by
`raise_for_status`) does on one attempt: either it raises a
`requests.exceptions.RequestException` carrying `str(e)` — connection error,
timeout, or a non-2xx status surfaced by `raise_for_status` — or it yields a
response, given by its body text together with the result of attempting to
parse that body as JSON (`none` for a `json.JSONDecodeError`). -/
inductive Attempt where
  | exn (msg : String)
  | resp (bodyText : String) (parsed : Option Value)

/-- The body of `_request`'s inner `try`: parse the response as JSON, check
the envelope's `success` field, and either return the `data` sub-object
(empty dict when absent) or raise `ValueError`.  Calling `.get` on a
non-dict raises `AttributeError`, as in Python. -/
def handleResponse (bodyText : String) (parsed : Option Value) : Except PyError Value :=
  match parsed with
  | none => .error (.valueError ("Invalid response from API: " ++ bodyText))
  | some (.vObj entries) =>
      if !(dictGetD entries "success" (.vBool false)).truthy then
        match dictGetD entries "error" (.vObj []) with
        | .vObj errorEntries =>
            let errorMsg := pyStr (dictGetD errorEntries "message" (.vStr "Unknown error"))
            let errorCode := pyStr (dictGetD errorEntries "code" (.vStr "UNKNOWN_ERROR"))
            .error (.valueError ("API Error (" ++ errorCode ++ "): " ++ errorMsg))
        | _ => .error (.attributeError "get")
      else
        .ok (dictGetD entries "data" (.vObj []))
  | some _ => .error (.attributeError "get")

/-- The retry loop of `_request`.  `attempts i` is the HTTP stack's outcome
for the `i`-th attempt (0-based); `remaining` is the number of retries still
allowed, i.e. `max_retries - retries` for the Python loop counter
`retries`.  A transport-level exception with no retries remaining is wrapped
in `ConnectionError`; any obtained response is handed to `handleResponse`
and its outcome — success or `ValueError`/`AttributeError` — is final. -/
def requestGo (attempts : Nat → Attempt) : Nat → Nat → Except PyError Value
  | i, remaining =>
    match attempts i with
    | .resp bodyText parsed => handleResponse bodyText parsed
    | .exn msg =>
        match remaining with
        | 0 => .error (.connectionError ("Failed to connect to KirokuForms API: " ++ msg))
        | r + 1 => requestGo attempts (i + 1) r

/-- The whole of `_request` for a client configured with `max_retries`: the loop starts
at attempt 0 with `max_retries` retries in budget, so at most
`max_retries + 1` attempts are made in total. -/
def requestModel (maxRetries : Nat) (attempts : Nat → Attempt) : Except PyError Value :=
  requestGo attempts 0 maxRetries

/-! ## Task lifecycle layer: `create_task` -/

/-- Python `v is None` as a Boolean, for the payload's `Remove None values` filters. -/
def Value.isNone : Value → Bool
  | .vNone => true
  | _ => false

/-- An optional string argument as the Python value it contributes to the
settings dict (`None` or the string itself). -/
def optStrValue : Option String → Value
  | none => .vNone
  | some s => .vStr s

/-- Python `a or b` on two optional strings: `a` unless it is falsy
(`None` or the empty string), in which case `b`. -/
def pyOrStr (a b : Option String) : Option String :=
  match a with
  | some s => if s == "" then b else some s
  | none => b

/-- The arguments of `KirokuFormsHITL.create_task`, with the source's
defaults.  `priority` is annotated `str` in the source but nothing stops a
caller passing `None`, so it is carried as an option like the other
settings. -/
structure CreateTaskArgs where
  title : String
  description : String := ""
  fields : Option (List Value) := none
  templateId : Option String := none
  initialData : Option Dict := none
  expiration : Option String := none
  priority : Option String := some "medium"
  taskId : Option String := none
  callbackUrl : Option String := none

/-- The `settings` sub-dict of `create_task`'s payload before the
`Remove None values` filter, in the source's key order. -/
def taskSettings (webhookUrl : Option String) (a : CreateTaskArgs) : Dict :=
  [("expiration", optStrValue a.expiration),
   ("priority", optStrValue a.priority),
   ("taskId", optStrValue a.taskId),
   ("callbackUrl", optStrValue (pyOrStr a.callbackUrl webhookUrl))]

/-- The initial `data` dict of `create_task` before the template/fields
keys are added, in the source's key order. -/
def taskBase (webhookUrl : Option String) (a : CreateTaskArgs) : Dict :=
  [("title", .vStr a.title),
   ("description", .vStr a.description),
   ("initialData", .vObj (a.initialData.getD [])),
   ("settings", .vObj (taskSettings webhookUrl a))]

/-- The two `Remove None values` filters and the `data["settings"] = ...`
reassignment at the end of `create_task`, applied to the data dict `d`. -/
def assemblePayload (webhookUrl : Option String) (a : CreateTaskArgs) (d : Dict) : Value :=
  .vObj (dictSet (d.filter fun kv => !kv.2.isNone) "settings"
    (.vObj ((taskSettings webhookUrl a).filter fun kv => !kv.2.isNone)))

/-- The payload-assembly part of `create_task` for a client constructed
with `webhook_url = webhookUrl`: validates the field/template configuration
and builds the wire payload that is passed to
`_request("POST", "tools/request-human-review", data)`, including the
final `Remove None values` filters. -/
def createTaskPayload (webhookUrl : Option String) (a : CreateTaskArgs) :
    Except PyError Value :=
  if a.fields.isNone && a.templateId.isNone then
    .error (.valueError "Either fields or template_id must be provided")
  else
    let base := taskBase webhookUrl a
    let withShape : Except PyError Dict :=
      match a.templateId, a.fields with
      | some tid, fs =>
          .ok (base ++ [("templateId", .vStr tid)] ++
            (match fs with
             | some fields => if fields.length > 0 then [("fields", .vList fields)] else []
             | none => []))
      | none, some fields =>
          if fields.length = 0 then
            .error (.valueError "At least one field is required when not using a template")
          else
            .ok (base ++ [("fields", .vList fields)])
      | none, none => .ok base
    withShape.map (assemblePayload webhookUrl a)

/-- No entry of the dict has the value `None` (what `Remove None values`
establishes). -/
def dictNoNone (d : Dict) : Prop :=
  ∀ kv ∈ d, kv.2.isNone = false

/-! ## Task lifecycle layer: `create_verification_task` -/

/-- Python `isinstance(value, (int, float))`.  In Python `bool` is a subclass of
`int`, so this also holds of booleans. -/
def isinstanceIntFloat : Value → Bool
  | .vInt _ => true
  | .vFloat _ => true
  | .vBool _ => true
  | _ => false

/-- Python `isinstance(value, bool)`. -/
def isinstanceBool : Value → Bool
  | .vBool _ => true
  | _ => false

/-- Helper for `str.title()`: uppercase each letter that starts a maximal
run of letters, lowercase the other letters, leave non-letters alone. -/
def titleCaseGo : Bool → List Char → List Char
  | _, [] => []
  | prevAlpha, c :: rest =>
      (if c.isAlpha then (if prevAlpha then c.toLower else c.toUpper) else c)
        :: titleCaseGo c.isAlpha rest

/-- Python `s.title()`. -/
def pyTitle (s : String) : String :=
  String.mk (titleCaseGo false s.data)

/-- Python `key.replace("_", " ")`: the source replaces the
single-character pattern `_` by a space, i.e. maps each underscore of the
string to a space. -/
def replaceUnderscores (s : String) : String :=
  String.mk (s.data.map fun c => if c = '_' then ' ' else c)

/-- The loop body of `create_verification_task`'s field synthesis: the
field appended for one `(key, value)` entry of `data`. -/
def verificationField (key : String) (value : Value) : Value :=
  let fieldType : String :=
    if isinstanceIntFloat value then "number"
    else if isinstanceBool value then "radio"
    else "text"
  if fieldType == "radio" && isinstanceBool value then
    .vObj [("type", .vStr fieldType),
           ("label", .vStr (pyTitle (replaceUnderscores key))),
           ("name", .vStr key),
           ("required", .vBool true),
           ("options", .vList
             [.vObj [("label", .vStr "True"), ("value", .vStr "true")],
              .vObj [("label", .vStr "False"), ("value", .vStr "false")]]),
           ("defaultValue", .vStr (pyStr value).toLower)]
  else
    .vObj [("type", .vStr fieldType),
           ("label", .vStr (pyTitle (replaceUnderscores key))),
           ("name", .vStr key),
           ("required", .vBool true),
           ("defaultValue", .vStr (pyStr value))]

/-- The fixed `is_correct` radio field appended after the per-datum fields. -/
def isCorrectField : Value :=
  .vObj [("type", .vStr "radio"),
         ("label", .vStr "Is this information correct?"),
         ("name", .vStr "is_correct"),
         ("required", .vBool true),
         ("options", .vList
           [.vObj [("label", .vStr "Yes"), ("value", .vStr "yes")],
            .vObj [("label", .vStr "No"), ("value", .vStr "no")]])]

/-- The fixed `comments` textarea field appended last. -/
def commentsField : Value :=
  .vObj [("type", .vStr "textarea"),
         ("label", .vStr "Comments or Corrections"),
         ("name", .vStr "comments"),
         ("required", .vBool false)]

/-- The field list `create_verification_task` synthesizes when `fields` is
`None`: one field per entry of `data` in insertion order, then the two
fixed verification fields. -/
def defaultVerificationFields (data : Dict) : List Value :=
  (data.map fun kv => verificationField kv.1 kv.2) ++ [isCorrectField, commentsField]

/-- The payload `create_verification_task` assembles: synthesize fields
when none are supplied, then delegate to `create_task`. -/
def createVerificationTaskPayload (webhookUrl : Option String) (a : CreateTaskArgs)
    (data : Dict) : Except PyError Value :=
  let fields : List Value :=
    match a.fields with
    | some fs => fs
    | none => defaultVerificationFields data
  createTaskPayload webhookUrl { a with fields := some fields }

/-! ## Task lifecycle layer: `get_task_result` -/

/-- The check `result.get("status") == "completed"`: in Python only a string compares
equal to the string literal, so this is a match on a string `status` value. -/
def statusCompleted (result : Dict) : Bool :=
  match dictGet result "status" with
  | some (.vStr s) => s == "completed"
  | _ => false

/-- What one iteration of `get_task_result`'s polling loop decides. -/
inductive PollStep where
  | ret (v : Value)
  | timeoutErr (msg : String)
  | again
deriving Repr

/-- One iteration of `get_task_result`'s loop: `result` is the data object
the status request returned, `elapsed` the value of
`time.time() - start_time` at the check.  Completed tasks return
`result.get("submission", {})`; otherwise the call either raises
`TimeoutError` (when `wait` is false or `elapsed > timeout`) or sleeps
5 seconds and polls again. -/
def pollStep (taskId : String) (wait : Bool) (timeout : Int) (result : Dict)
    (elapsed : Int) : PollStep :=
  if statusCompleted result then
    .ret (dictGetD result "submission" (.vObj []))
  else if !wait || elapsed > timeout then
    .timeoutErr ("Task " ++ taskId ++ " not completed within timeout")
  else .again

/-- The polling loop of `get_task_result`, unrolled over the sequence of
status responses.  `polls i` is the data object the `i`-th status request
returns (each request assumed to succeed at transport level), `elapsed i`
the elapsed wall-clock time at the `i`-th check; `fuel` bounds how many
further sleeps we unroll, `none` meaning the loop is still polling after
`fuel` sleeps. -/
def getTaskResultGo (taskId : String) (wait : Bool) (timeout : Int)
    (polls : Nat → Dict) (elapsed : Nat → Int) : Nat → Nat → Option (Except PyError Value)
  | i, fuel =>
    match pollStep taskId wait timeout (polls i) (elapsed i) with
    | .ret v => some (.ok v)
    | .timeoutErr m => some (.error (.timeoutError m))
    | .again =>
        match fuel with
        | 0 => none
        | f + 1 => getTaskResultGo taskId wait timeout polls elapsed (i + 1) f

/-- The poll loop of `get_task_result(task_id, wait, timeout)` from the first poll. -/
def getTaskResultModel (taskId : String) (wait : Bool) (timeout : Int)
    (polls : Nat → Dict) (elapsed : Nat → Int) (fuel : Nat) :
    Option (Except PyError Value) :=
  getTaskResultGo taskId wait timeout polls elapsed 0 fuel

/-! ## Interrupt adapter: `create_kiroku_interrupt_handler` -/

/-- The client calls the interrupt handler makes, as oracles: what
`create_verification_task`, `create_task` and `get_task_result` return for
the handler's arguments (these go through the network, so their outcomes
are inputs of the model).  Arguments are the raw values the handler passes:
title, description, and data resp. fields; `getTaskResult` takes the task's
`taskId` value. -/
structure ClientOracle where
  createVerificationTask : Value → Value → Value → Except PyError Dict
  createTask : Value → Value → Value → Except PyError Dict
  getTaskResult : Value → Except PyError Value

/-- The task-creation call `interrupt_handler` makes: a verification task
when no (truthy) fields but truthy data are given, else a plain task —
with the source's defaults for title, description, fields and data. -/
def handlerCreateCall (client : ClientOracle) (interruptData : Dict) :
    Except PyError Dict :=
  let title := dictGetD interruptData "title" (.vStr "Human Verification Required")
  let description := dictGetD interruptData "description" (.vStr "Please verify the following information")
  let fields := dictGetD interruptData "fields" (.vList [])
  let data := dictGetD interruptData "data" (.vObj [])
  if !fields.truthy && data.truthy then
    client.createVerificationTask title description data
  else
    client.createTask title description fields

/-- The `human_verification` record in its initial (pending) shape. -/
def pendingRecord (taskIdV formUrlV : Value) : Dict :=
  [("completed", .vBool false), ("task_id", taskIdV),
   ("form_url", formUrlV), ("result", .vNone)]

/-- The `human_verification` record after a successful wait: the pending
record with `completed` set to `True` and `result` set to the submission. -/
def completedRecord (taskIdV formUrlV submission : Value) : Dict :=
  [("completed", .vBool true), ("task_id", taskIdV),
   ("form_url", formUrlV), ("result", submission)]

/-- The `interrupt_handler` closure returned by
`create_kiroku_interrupt_handler`: extracts the interrupt data (with the
source's defaults), creates a verification task when no fields but data
are given and a plain task otherwise, composes the new state
`{**state, "human_verification": {...}}`, and when `wait_for_result` is
truthy blocks on `get_task_result`, catching exactly `TimeoutError`. -/
def interruptHandler (client : ClientOracle) (state : Dict) (interruptData : Dict) :
    Except PyError Dict :=
  let waitForResult := dictGetD interruptData "wait_for_result" (.vBool true)
  match handlerCreateCall client interruptData with
  | .error e => .error e
  | .ok task =>
    -- `task["taskId"]` is subscripted first, so its KeyError wins.
    match dictGet task "taskId", dictGet task "formUrl" with
    | none, _ => .error (.keyError "taskId")
    | some _, none => .error (.keyError "formUrl")
    | some taskIdV, some formUrlV =>
        let record : Dict := pendingRecord taskIdV formUrlV
        let result : Dict := dictSet state "human_verification" (.vObj record)
        if waitForResult.truthy then
          match client.getTaskResult taskIdV with
          | .ok submission =>
              let record' := dictSet (dictSet record "completed" (.vBool true)) "result" submission
              .ok (dictSet result "human_verification" (.vObj record'))
          | .error (.timeoutError _) => .ok result
          | .error e => .error e
        else
          .ok result

/-! ## Dictionary lemmas -/

theorem dictGet_dictSet_self (d : Dict) (k : String) (v : Value) :
    dictGet (dictSet d k v) k = some v := by
  induction d with
  | nil => simp [dictSet, dictGet]
  | cons kv rest ih =>
      obtain ⟨k', v'⟩ := kv
      by_cases h : k' = k <;> simp [dictSet, dictGet, h, ih]

theorem dictGet_dictSet_ne (d : Dict) (k k' : String) (v : Value) (h : k' ≠ k) :
    dictGet (dictSet d k v) k' = dictGet d k' := by
  have hk : ¬k = k' := fun he => h he.symm
  induction d with
  | nil => simp [dictSet, dictGet, hk]
  | cons kv rest ih =>
      obtain ⟨k₀, v₀⟩ := kv
      by_cases h₀ : k₀ = k
      · subst h₀; simp [dictSet, dictGet, hk]
      · simp [dictSet, dictGet, h₀, ih]

theorem dictSet_dictSet_self (d : Dict) (k : String) (v v' : Value) :
    dictSet (dictSet d k v) k v' = dictSet d k v' := by
  induction d with
  | nil => simp [dictSet]
  | cons kv rest ih =>
      obtain ⟨k₀, v₀⟩ := kv
      by_cases h₀ : k₀ = k <;> simp [dictSet, h₀, ih]

theorem dictNoNone_filter (d : Dict) :
    dictNoNone (d.filter fun kv => !kv.2.isNone) := by
  intro kv hkv
  have := (List.mem_filter.mp hkv).2
  simpa using this

theorem dictNoNone_dictSet (d : Dict) (k : String) (v : Value)
    (hd : dictNoNone d) (hv : v.isNone = false) : dictNoNone (dictSet d k v) := by
  induction d with
  | nil => intro kv hkv; simp [dictSet] at hkv; simp [hkv, hv]
  | cons kv₀ rest ih =>
      obtain ⟨k₀, v₀⟩ := kv₀
      have hd₀ := hd ⟨k₀, v₀⟩ (by simp)
      have hrest : dictNoNone rest := fun kv hkv => hd kv (by simp [hkv])
      by_cases h₀ : k₀ = k
      · intro kv hkv
        simp [dictSet, h₀] at hkv
        rcases hkv with h | h
        · simp [h, hv]
        · exact hrest kv h
      · intro kv hkv
        simp [dictSet, h₀] at hkv
        rcases hkv with h | h
        · simp [h]; simpa using hd₀
        · exact ih hrest kv h

theorem dictGet_filter_none (d : Dict) (k : String)
    (h : ∀ kv ∈ d, kv.1 = k → kv.2.isNone = true) :
    dictGet (d.filter fun kv => !kv.2.isNone) k = none := by
  induction d with
  | nil => simp [dictGet]
  | cons kv rest ih =>
      obtain ⟨k₀, v₀⟩ := kv
      have hrest : ∀ kv ∈ rest, kv.1 = k → kv.2.isNone = true :=
        fun kv hkv => h kv (List.mem_cons_of_mem _ hkv)
      by_cases hn : v₀.isNone
      · simpa [List.filter, hn] using ih hrest
      · have hk₀ : k₀ ≠ k := fun he => hn (h ⟨k₀, v₀⟩ (by simp) he)
        simpa [List.filter, hn, dictGet, hk₀] using ih hrest

/-! ## Claim C4: `create_task` configuration validation -/

/-- C4: `create_task` raises a `ValueError` whenever both `fields` and
`template_id` are `None` (regardless of all other arguments), raises a
`ValueError` whenever `fields` is supplied as an empty list while no
`template_id` is given, and in every other case raises no configuration
error (payload assembly succeeds). -/
theorem createTask_config_validation (w : Option String) (a : CreateTaskArgs) :
    (a.fields = none → a.templateId = none →
      createTaskPayload w a = .error (.valueError "Either fields or template_id must be provided"))
    ∧ (a.fields = some [] → a.templateId = none →
      createTaskPayload w a = .error (.valueError "At least one field is required when not using a template"))
    ∧ (¬(a.fields = none ∧ a.templateId = none) →
       ¬(a.fields = some [] ∧ a.templateId = none) →
      ∃ payload, createTaskPayload w a = .ok payload) := by
  refine ⟨?_, ?_, ?_⟩
  · intro hf ht
    simp [createTaskPayload, hf, ht]
  · intro hf ht
    simp [createTaskPayload, hf, ht, Except.map]
  · intro h1 h2
    cases hti : a.templateId with
    | some tid =>
        cases hfs : a.fields with
        | none =>
            exact ⟨assemblePayload w a (taskBase w a ++ [("templateId", .vStr tid)]),
              by simp [createTaskPayload, hti, hfs, Except.map]⟩
        | some fields =>
            exact ⟨assemblePayload w a (taskBase w a ++ ("templateId", .vStr tid) ::
                if 0 < fields.length then [("fields", .vList fields)] else []),
              by simp [createTaskPayload, hti, hfs, Except.map]⟩
    | none =>
        cases hfs : a.fields with
        | none => exact absurd ⟨hfs, hti⟩ h1
        | some fields =>
            have hne : fields ≠ [] := fun he => h2 ⟨by rw [hfs, he], hti⟩
            have hlen : ¬fields.length = 0 := by simpa using hne
            exact ⟨assemblePayload w a (taskBase w a ++ [("fields", .vList fields)]),
              by simp [createTaskPayload, hti, hfs, hlen, Except.map]⟩

/-- Witness for `createTask_config_validation` at concrete inputs:
no fields and no template is rejected. -/
theorem createTask_config_validation_witness :
    createTaskPayload none { title := "T" } =
      .error (.valueError "Either fields or template_id must be provided") :=
  (createTask_config_validation none { title := "T" }).1 rfl rfl

/-! ## Claim C9: no `None` values in the wire payload -/

/-- Every successful `create_task` payload is the assembly of the base dict
plus the template/fields entries chosen by the shape match. -/
theorem createTaskPayload_ok_form (w : Option String) (a : CreateTaskArgs) (v : Value)
    (h : createTaskPayload w a = .ok v) :
    ∃ extra : Dict, v = assemblePayload w a (taskBase w a ++ extra) := by
  cases hti : a.templateId with
  | some tid =>
      cases hfs : a.fields with
      | none =>
          refine ⟨[("templateId", .vStr tid)], ?_⟩
          simp [createTaskPayload, hti, hfs, Except.map] at h
          exact h.symm
      | some fields =>
          refine ⟨("templateId", .vStr tid) ::
            (if 0 < fields.length then [("fields", .vList fields)] else []), ?_⟩
          simp [createTaskPayload, hti, hfs, Except.map] at h
          rw [← h]
  | none =>
      cases hfs : a.fields with
      | none => simp [createTaskPayload, hti, hfs] at h
      | some fields =>
          by_cases hl : fields.length = 0
          · simp [createTaskPayload, hti, hfs, hl, Except.map] at h
          · refine ⟨[("fields", .vList fields)], ?_⟩
            simp [createTaskPayload, hti, hfs, hl, Except.map] at h
            exact h.symm

/-- C9: for every successful call to `create_task`, the assembled wire
payload contains no `None`-valued top-level entry; the settings sub-mapping
contains no `None` value either, and each optional setting whose resolved
argument is `None` (`expiration`, `taskId`, and `callbackUrl` when neither
`callback_url` nor the client's `webhook_url` is given) is omitted from it
rather than sent as null. -/
theorem createTask_payload_omits_none (w : Option String) (a : CreateTaskArgs)
    (d : Dict) (h : createTaskPayload w a = .ok (.vObj d)) :
    dictNoNone d
    ∧ ∃ s, dictGet d "settings" = some (.vObj s) ∧ dictNoNone s
        ∧ (a.expiration = none → dictGet s "expiration" = none)
        ∧ (a.taskId = none → dictGet s "taskId" = none)
        ∧ (a.callbackUrl = none → w = none → dictGet s "callbackUrl" = none) := by
  obtain ⟨extra, hv⟩ := createTaskPayload_ok_form w a _ h
  have hd : d = dictSet ((taskBase w a ++ extra).filter fun kv => !kv.2.isNone)
      "settings" (.vObj ((taskSettings w a).filter fun kv => !kv.2.isNone)) := by
    simpa [assemblePayload] using hv
  subst hd
  refine ⟨dictNoNone_dictSet _ _ _ (dictNoNone_filter _) rfl,
    (taskSettings w a).filter (fun kv => !kv.2.isNone),
    dictGet_dictSet_self _ _ _, dictNoNone_filter _, ?_, ?_, ?_⟩
  · intro hexp
    refine dictGet_filter_none _ _ ?_
    intro kv hkv hk
    simp [taskSettings, hexp] at hkv
    rcases hkv with h₁ | h₁ | h₁ | h₁ <;> subst h₁ <;>
      simp_all [optStrValue, Value.isNone]
  · intro htid
    refine dictGet_filter_none _ _ ?_
    intro kv hkv hk
    simp [taskSettings, htid] at hkv
    rcases hkv with h₁ | h₁ | h₁ | h₁ <;> subst h₁ <;>
      simp_all [optStrValue, Value.isNone]
  · intro hcb hw
    refine dictGet_filter_none _ _ ?_
    intro kv hkv hk
    simp [taskSettings, hcb, hw, pyOrStr] at hkv
    rcases hkv with h₁ | h₁ | h₁ | h₁ <;> subst h₁ <;>
      simp_all [optStrValue, Value.isNone]

/-- Witness for `createTask_payload_omits_none` at concrete inputs. -/
theorem createTask_payload_omits_none_witness :
    dictNoNone
      [("title", .vStr "T"),
       ("description", .vStr ""),
       ("initialData", .vObj []),
       ("settings", .vObj [("priority", .vStr "medium")]),
       ("templateId", .vStr "tpl")] :=
  (createTask_payload_omits_none none { title := "T", templateId := some "tpl" }
    _ rfl).1

/-! ## Claim C10: the `callbackUrl` fallback -/

/-- The `callbackUrl` entry of the filtered settings is exactly
`callback_url or self.webhook_url` under Python truthiness. -/
theorem dictGet_settings_callbackUrl (w : Option String) (a : CreateTaskArgs) :
    dictGet ((taskSettings w a).filter fun kv => !kv.2.isNone) "callbackUrl" =
      (pyOrStr a.callbackUrl w).map .vStr := by
  rcases he : a.expiration with _ | e <;> rcases hp : a.priority with _ | p <;>
    rcases ht : a.taskId with _ | t <;> rcases hcb : pyOrStr a.callbackUrl w with _ | c <;>
    simp [taskSettings, he, hp, ht, hcb, optStrValue, Value.isNone, dictGet]

/-- The fallback `callback_url or webhook_url` is `None` exactly when `callback_url` is
falsy (`None` or the empty string) and `webhook_url` is `None`. -/
theorem pyOrStr_eq_none (c w : Option String) :
    pyOrStr c w = none ↔ (c = none ∨ c = some "") ∧ w = none := by
  rcases c with _ | s
  · simp [pyOrStr]
  · by_cases hs : s = ""
    · subst hs; simp [pyOrStr]
    · simp [pyOrStr, hs]

/-- C10 counterexample: a call with `callback_url = ""` — an argument that
is not `None` — on a client with no `webhook_url` produces a payload whose
settings nonetheless lack `callbackUrl`, because `create_task` resolves the
setting with Python truthiness (`callback_url or self.webhook_url`), not an
`is None` test.  This refutes "callbackUrl is absent from the payload only
when both callback_url and the constructor's webhook_url are None". -/
theorem createTask_callback_counterexample :
    createTaskPayload none
        { title := "T", fields := some [.vObj [("name", .vStr "q")]],
          callbackUrl := some "" } =
      .ok (.vObj
        [("title", .vStr "T"),
         ("description", .vStr ""),
         ("initialData", .vObj []),
         ("settings", .vObj [("priority", .vStr "medium")]),
         ("fields", .vList [.vObj [("name", .vStr "q")]])])
    ∧ (some "" : Option String) ≠ none :=
  ⟨rfl, by simp⟩

/-- C10 amended: for every successful `create_task` call, when
`callback_url` is `None` and the client's `webhook_url` is some `u`, the
payload's settings carry `callbackUrl = u`; and `callbackUrl` is absent
from the settings exactly when `callback_url` is `None` **or the empty
string** and `webhook_url` is `None`. -/
theorem createTask_callback_fallback (w : Option String) (a : CreateTaskArgs)
    (d s : Dict) (h : createTaskPayload w a = .ok (.vObj d))
    (hs : dictGet d "settings" = some (.vObj s)) :
    (a.callbackUrl = none → ∀ u, w = some u → dictGet s "callbackUrl" = some (.vStr u))
    ∧ (dictGet s "callbackUrl" = none ↔
        (a.callbackUrl = none ∨ a.callbackUrl = some "") ∧ w = none) := by
  obtain ⟨extra, hv⟩ := createTaskPayload_ok_form w a _ h
  have hd : d = dictSet ((taskBase w a ++ extra).filter fun kv => !kv.2.isNone)
      "settings" (.vObj ((taskSettings w a).filter fun kv => !kv.2.isNone)) := by
    simpa [assemblePayload] using hv
  subst hd
  rw [dictGet_dictSet_self] at hs
  have hsf : s = (taskSettings w a).filter fun kv => !kv.2.isNone := by
    have := Option.some.inj hs
    exact (Value.vObj.inj this).symm
  subst hsf
  constructor
  · intro hcb u hw
    rw [dictGet_settings_callbackUrl, hcb, hw]
    rfl
  · rw [dictGet_settings_callbackUrl, ← pyOrStr_eq_none a.callbackUrl w]
    rcases pyOrStr a.callbackUrl w with _ | c <;> simp

/-- Witness for `createTask_callback_fallback` at concrete inputs: with no
`callback_url` and `webhook_url = "https://hook"`, the settings carry the
webhook URL as `callbackUrl`. -/
theorem createTask_callback_fallback_witness :
    dictGet [("priority", .vStr "medium"), ("callbackUrl", .vStr "https://hook")]
        "callbackUrl" = some (.vStr "https://hook") :=
  (createTask_callback_fallback (some "https://hook")
      { title := "T", fields := some [.vObj [("name", .vStr "q")]] }
      [("title", .vStr "T"),
       ("description", .vStr ""),
       ("initialData", .vObj []),
       ("settings", .vObj [("priority", .vStr "medium"),
                           ("callbackUrl", .vStr "https://hook")]),
       ("fields", .vList [.vObj [("name", .vStr "q")]])]
      [("priority", .vStr "medium"), ("callbackUrl", .vStr "https://hook")]
      rfl rfl).1 rfl "https://hook" rfl

/-! ## Claim C3: transport-level retry -/

/-- Stepping the retry loop past one transport failure. -/
theorem requestGo_exn_step (attempts : Nat → Attempt) (i r : Nat) (m : String)
    (hm : attempts i = .exn m) :
    requestGo attempts i (r + 1) = requestGo attempts (i + 1) r := by
  rw [requestGo, hm]

/-- If the first `k` attempts starting at `i` all fail at transport level
and at least `k` retries remain, the loop reaches attempt `i + k`. -/
theorem requestGo_skip (attempts : Nat → Attempt) (k : Nat) :
    ∀ i r, k ≤ r → (∀ j, j < k → ∃ m, attempts (i + j) = .exn m) →
      requestGo attempts i r = requestGo attempts (i + k) (r - k) := by
  induction k with
  | zero => intro i r _ _; simp
  | succ n ih =>
      intro i r hk h
      obtain ⟨m, hm⟩ := h 0 (by omega)
      rw [Nat.add_zero] at hm
      rcases r with _ | r'
      · omega
      · rw [requestGo_exn_step attempts i r' m hm]
        rw [ih (i + 1) r' (by omega)
          (fun j hj => by
            obtain ⟨m', hm'⟩ := h (j + 1) (by omega)
            exact ⟨m', by rwa [show i + (j + 1) = i + 1 + j by omega] at hm'⟩)]
        congr 1 <;> omega

/-- C3: in `_request`, a transport-level failure (an exception from the
HTTP stack, including non-2xx statuses raised by `raise_for_status`) is
retried with the identical request.  If the first `k` attempts fail at
transport level with `k ≤ max_retries` and attempt `k` (0-based; i.e. an
attempt numbered at most `max_retries + 1`) obtains a response, that
response's result is returned with no connection error; if every attempt
through `max_retries + 1` fails at transport level, the call raises
`ConnectionError` wrapping the last transport exception's message. -/
theorem request_retry_contract (maxRetries : Nat) (attempts : Nat → Attempt) :
    (∀ k, k ≤ maxRetries → (∀ j, j < k → ∃ m, attempts j = .exn m) →
      ∀ bodyText parsed, attempts k = .resp bodyText parsed →
        requestModel maxRetries attempts = handleResponse bodyText parsed)
    ∧ ((∀ j, j ≤ maxRetries → ∃ m, attempts j = .exn m) →
      ∀ m, attempts maxRetries = .exn m →
        requestModel maxRetries attempts =
          .error (.connectionError ("Failed to connect to KirokuForms API: " ++ m))) := by
  constructor
  · intro k hk hfail bodyText parsed hresp
    rw [requestModel,
      requestGo_skip attempts k 0 maxRetries hk
        (fun j hj => by simpa using hfail j hj)]
    rw [show (0 : Nat) + k = k by omega, requestGo, hresp]
  · intro hfail m hm
    rw [requestModel,
      requestGo_skip attempts maxRetries 0 maxRetries le_rfl
        (fun j hj => by simpa using hfail j (by omega))]
    rw [show (0 : Nat) + maxRetries = maxRetries by omega, requestGo, hm]
    simp [Nat.sub_self]

/-- Witness for `request_retry_contract`: transport failures on attempts
0 and 1, a success envelope on attempt 2, with `max_retries = 3`. -/
theorem request_retry_contract_witness :
    requestModel 3
        (fun j => if j < 2 then .exn "refused"
          else .resp "" (some (.vObj [("success", .vBool true),
                                      ("data", .vObj [("q", .vStr "v")])]))) =
      .ok (.vObj [("q", .vStr "v")]) :=
  ((request_retry_contract 3
      (fun j => if j < 2 then .exn "refused"
        else .resp "" (some (.vObj [("success", .vBool true),
                                    ("data", .vObj [("q", .vStr "v")])])))).1
    2 (by omega) (fun j hj => ⟨"refused", by simp [hj]⟩)
    "" (some (.vObj [("success", .vBool true), ("data", .vObj [("q", .vStr "v")])]))
    (by simp)).trans rfl

/-! ## Claim C5: response-envelope unwrapping, no retry of value errors -/

/-- C5: on an obtained (2xx) HTTP response, `_request` parses the body as
JSON.  A non-JSON body raises a `ValueError` whose message includes the raw
response text; a parsed object envelope with a falsy `success` field raises
a `ValueError` carrying the service-reported error code and message (with
the source's defaults); otherwise the envelope's `data` sub-object is
returned, an empty dict when absent.  And whatever the first attempt's
response contains, its outcome is final — these `ValueError`s are raised at
the first occurrence and are never retried, whatever the retry budget. -/
theorem request_envelope_handling (bodyText : String) (entries : Dict)
    (maxRetries : Nat) (attempts : Nat → Attempt) :
    (handleResponse bodyText none =
      .error (.valueError ("Invalid response from API: " ++ bodyText)))
    ∧ (∀ errEntries,
        (dictGetD entries "success" (.vBool false)).truthy = false →
        dictGetD entries "error" (.vObj []) = .vObj errEntries →
        handleResponse bodyText (some (.vObj entries)) =
          .error (.valueError ("API Error ("
            ++ pyStr (dictGetD errEntries "code" (.vStr "UNKNOWN_ERROR")) ++ "): "
            ++ pyStr (dictGetD errEntries "message" (.vStr "Unknown error")))))
    ∧ ((dictGetD entries "success" (.vBool false)).truthy = true →
        handleResponse bodyText (some (.vObj entries)) =
          .ok (dictGetD entries "data" (.vObj [])))
    ∧ (∀ parsed, attempts 0 = .resp bodyText parsed →
        requestModel maxRetries attempts = handleResponse bodyText parsed) := by
  refine ⟨rfl, ?_, ?_, ?_⟩
  · intro errEntries hsucc herr
    simp [handleResponse, hsucc, herr]
  · intro hsucc
    simp [handleResponse, hsucc]
  · intro parsed h0
    rw [requestModel, requestGo, h0]

/-- Witness for `request_envelope_handling`: a `success=false` envelope
yields the service's code and message in a `ValueError`. -/
theorem request_envelope_handling_witness :
    handleResponse "raw"
        (some (.vObj [("success", .vBool false),
                      ("error", .vObj [("code", .vStr "E1"),
                                       ("message", .vStr "bad")])])) =
      .error (.valueError "API Error (E1): bad") :=
  ((request_envelope_handling "raw"
      [("success", .vBool false),
       ("error", .vObj [("code", .vStr "E1"), ("message", .vStr "bad")])]
      0 (fun _ => .exn "")).2.1
    [("code", .vStr "E1"), ("message", .vStr "bad")] rfl rfl).trans rfl

/-! ## Claims C1 and C6: `get_task_result` polling -/

/-- Stepping the poll loop past iterations that decide to poll again. -/
theorem getTaskResultGo_skip (taskId : String) (wait : Bool) (timeout : Int)
    (polls : Nat → Dict) (elapsed : Nat → Int) (n : Nat) :
    ∀ i fuel, n ≤ fuel →
      (∀ j, j < n →
        pollStep taskId wait timeout (polls (i + j)) (elapsed (i + j)) = .again) →
      getTaskResultGo taskId wait timeout polls elapsed i fuel =
        getTaskResultGo taskId wait timeout polls elapsed (i + n) (fuel - n) := by
  induction n with
  | zero => intro i fuel _ _; simp
  | succ n ih =>
      intro i fuel hn h
      have h0 := h 0 (by omega)
      rw [Nat.add_zero] at h0
      rcases fuel with _ | fuel'
      · omega
      · rw [getTaskResultGo, h0]
        rw [ih (i + 1) fuel' (by omega)
          (fun j hj => by
            have hj' := h (j + 1) (by omega)
            rwa [show i + (j + 1) = i + 1 + j by omega] at hj')]
        rw [Nat.succ_sub_succ, show i + (n + 1) = i + 1 + n by omega]

/-- C1 counterexample: polled with the mocked completed response
`status = "completed"`, `submission = {"data": {"q": "answer"}}`,
`get_task_result` returns the outer submission object
`{"data": {"q": "answer"}}` — `result.get("submission", {})` — and not the
inner data mapping `{"q": "answer"}` the claim specifies. -/
theorem getTaskResult_submission_counterexample :
    getTaskResultModel "task-1" true 3600
        (fun _ => [("status", .vStr "completed"),
                   ("submission", .vObj [("data", .vObj [("q", .vStr "answer")])])])
        (fun _ => 0) 0 =
      some (.ok (.vObj [("data", .vObj [("q", .vStr "answer")])]))
    ∧ getTaskResultModel "task-1" true 3600
        (fun _ => [("status", .vStr "completed"),
                   ("submission", .vObj [("data", .vObj [("q", .vStr "answer")])])])
        (fun _ => 0) 0 ≠
      some (.ok (.vObj [("q", .vStr "answer")])) := by
  refine ⟨rfl, fun hcontra => ?_⟩
  simp [getTaskResultModel, getTaskResultGo, pollStep, statusCompleted,
    dictGet, dictGetD] at hcontra

/-- C1 amended: in every poll of `get_task_result` in which the status
response reports `completed` (after any number of polls that decided to
wait), the call returns the response's `submission` value itself — the
outer submission envelope, `{}` when absent — not `submission["data"]`. -/
theorem getTaskResult_completed_returns_submission (taskId : String) (wait : Bool)
    (timeout : Int) (polls : Nat → Dict) (elapsed : Nat → Int) (fuel n : Nat)
    (hn : n ≤ fuel)
    (hskip : ∀ j, j < n →
      pollStep taskId wait timeout (polls j) (elapsed j) = .again)
    (h : statusCompleted (polls n) = true) :
    getTaskResultModel taskId wait timeout polls elapsed fuel =
      some (.ok (dictGetD (polls n) "submission" (.vObj []))) := by
  rw [getTaskResultModel,
    getTaskResultGo_skip taskId wait timeout polls elapsed n 0 fuel hn
      (fun j hj => by simpa using hskip j hj)]
  rw [show (0 : Nat) + n = n by omega]
  rcases hf : fuel - n with _ | f <;> rw [getTaskResultGo] <;>
    simp [pollStep, h]

/-- Witness for `getTaskResult_completed_returns_submission` at the
mocked completed response. -/
theorem getTaskResult_completed_returns_submission_witness :
    getTaskResultModel "task-1" true 3600
        (fun _ => [("status", .vStr "completed"),
                   ("submission", .vObj [("q", .vStr "answer")])])
        (fun _ => 0) 0 =
      some (.ok (.vObj [("q", .vStr "answer")])) :=
  (getTaskResult_completed_returns_submission "task-1" true 3600
      (fun _ => [("status", .vStr "completed"),
                 ("submission", .vObj [("q", .vStr "answer")])])
      (fun _ => 0) 0 0 le_rfl (fun j hj => absurd hj (by omega)) rfl).trans rfl

/-- C6: in `get_task_result`'s poll loop, whenever the observed status is
not `completed`: if `wait` is false, or the elapsed wall-clock time since
the call began exceeds `timeout`, the call raises `TimeoutError`; otherwise
it sleeps the fixed 5-second interval and polls again (`PollStep.again`).
With `wait = false` the whole call is decided by the first status request
alone: it returns the submission when completed and raises the
`TimeoutError` otherwise. -/
theorem getTaskResult_wait_timeout (taskId : String) (timeout : Int)
    (polls : Nat → Dict) (elapsed : Nat → Int) (fuel : Nat) :
    (∀ (wait : Bool) (result : Dict) (e : Int),
      statusCompleted result = false → (wait = false ∨ e > timeout) →
      pollStep taskId wait timeout result e =
        .timeoutErr ("Task " ++ taskId ++ " not completed within timeout"))
    ∧ (∀ (result : Dict) (e : Int),
      statusCompleted result = false → e ≤ timeout →
      pollStep taskId true timeout result e = .again)
    ∧ (getTaskResultModel taskId false timeout polls elapsed fuel =
        some (if statusCompleted (polls 0) = true
          then .ok (dictGetD (polls 0) "submission" (.vObj []))
          else .error (.timeoutError
            ("Task " ++ taskId ++ " not completed within timeout")))) := by
  refine ⟨?_, ?_, ?_⟩
  · intro wait result e hsc hor
    rcases hor with hw | he
    · simp [pollStep, hsc, hw]
    · simp [pollStep, hsc, he]
  · intro result e hsc hle
    simp [pollStep, hsc, not_lt.mpr hle]
  · rw [getTaskResultModel]
    rcases fuel with _ | f <;> rw [getTaskResultGo] <;>
      by_cases hsc : statusCompleted (polls 0) = true <;> simp [pollStep, hsc]

/-- Witness for `getTaskResult_wait_timeout`: a pending status with
`wait = false` raises the timeout error at once. -/
theorem getTaskResult_wait_timeout_witness :
    pollStep "task-1" false 3600 [("status", .vStr "pending")] 0 =
      .timeoutErr "Task task-1 not completed within timeout" :=
  ((getTaskResult_wait_timeout "task-1" 3600 (fun _ => []) (fun _ => 0) 0).1
    false [("status", .vStr "pending")] 0 rfl (Or.inl rfl)).trans rfl

/-! ## Claim C2: verification-field synthesis -/

/-- C2 (documenting the code's divergence): on the spec's example data
`{"a": 1, "is_ready": True, "note": "x"}`, the synthesized `is_ready` field
has type `number` with `defaultValue "True"` — not the claimed required
radio with true/false options and lowercase default `"true"` — because
Python's `bool` is a subclass of `int`, so `isinstance(value, (int, float))`
captures booleans before the `bool` branch is ever consulted; the radio
branch of the synthesis loop is unreachable, as the second conjunct states
for every boolean value. -/
theorem verificationFields_bool_becomes_number :
    (defaultVerificationFields
        [("a", .vInt 1), ("is_ready", .vBool true), ("note", .vStr "x")] =
      [.vObj [("type", .vStr "number"), ("label", .vStr "A"), ("name", .vStr "a"),
              ("required", .vBool true), ("defaultValue", .vStr "1")],
       .vObj [("type", .vStr "number"), ("label", .vStr "Is Ready"),
              ("name", .vStr "is_ready"), ("required", .vBool true),
              ("defaultValue", .vStr "True")],
       .vObj [("type", .vStr "text"), ("label", .vStr "Note"), ("name", .vStr "note"),
              ("required", .vBool true), ("defaultValue", .vStr "x")],
       isCorrectField, commentsField])
    ∧ ∀ (key : String) (b : Bool),
        verificationField key (.vBool b) =
          .vObj [("type", .vStr "number"),
                 ("label", .vStr (pyTitle (replaceUnderscores key))),
                 ("name", .vStr key),
                 ("required", .vBool true),
                 ("defaultValue", .vStr (if b then "True" else "False"))] := by
  refine ⟨rfl, fun key b => ?_⟩
  cases b <;> rfl

/-! ## Claims C7 and C8: the interrupt adapter -/

/-- The interrupt handler's outcome in each case, once the creation call
has succeeded with a task carrying `taskId` and `formUrl`. -/
theorem interruptHandler_cases (client : ClientOracle)
    (state interruptData task : Dict) (tid furl : Value)
    (hcreate : handlerCreateCall client interruptData = .ok task)
    (htid : dictGet task "taskId" = some tid)
    (hfurl : dictGet task "formUrl" = some furl) :
    ((dictGetD interruptData "wait_for_result" (.vBool true)).truthy = false →
      interruptHandler client state interruptData =
        .ok (dictSet state "human_verification" (.vObj (pendingRecord tid furl))))
    ∧ (∀ sub, (dictGetD interruptData "wait_for_result" (.vBool true)).truthy = true →
        client.getTaskResult tid = .ok sub →
      interruptHandler client state interruptData =
        .ok (dictSet state "human_verification" (.vObj (completedRecord tid furl sub))))
    ∧ (∀ m, (dictGetD interruptData "wait_for_result" (.vBool true)).truthy = true →
        client.getTaskResult tid = .error (.timeoutError m) →
      interruptHandler client state interruptData =
        .ok (dictSet state "human_verification" (.vObj (pendingRecord tid furl))))
    ∧ (∀ e, (dictGetD interruptData "wait_for_result" (.vBool true)).truthy = true →
        client.getTaskResult tid = .error e → (∀ m, e ≠ .timeoutError m) →
      interruptHandler client state interruptData = .error e) := by
  refine ⟨?_, ?_, ?_, ?_⟩
  · intro hw
    unfold interruptHandler
    rw [hcreate]
    dsimp only
    rw [htid, hfurl]
    simp [hw]
  · intro sub hw hres
    unfold interruptHandler
    rw [hcreate]
    dsimp only
    rw [htid, hfurl]
    simp [hw, hres, dictSet_dictSet_self, pendingRecord, completedRecord, dictSet]
  · intro m hw hres
    unfold interruptHandler
    rw [hcreate]
    dsimp only
    rw [htid, hfurl]
    simp [hw, hres]
  · intro e hw hres hne
    unfold interruptHandler
    rw [hcreate]
    dsimp only
    rw [htid, hfurl]
    cases e with
    | timeoutError m => exact absurd rfl (hne m)
    | valueError m => simp [hw, hres]
    | connectionError m => simp [hw, hres]
    | keyError k => simp [hw, hres]
    | attributeError a => simp [hw, hres]

/-- C7: for every state and interrupt data for which the handler's task
creation succeeds (returning a task with `taskId` and `formUrl`) and the
handler returns a state, the returned state agrees with the input state on
every key other than `human_verification` (the input mapping itself is
untouched — the embedding is a pure function of it), and carries a
`human_verification` record whose `task_id` is the created task's external
id, whose `form_url` is the task's form URL, and whose `completed` flag is
the boolean `False` with `result = None` while pending, or `True` with the
wait's submission stored in `result` once resolved. -/
theorem interruptHandler_state_contract (client : ClientOracle)
    (state interruptData task : Dict) (tid furl : Value)
    (hcreate : handlerCreateCall client interruptData = .ok task)
    (htid : dictGet task "taskId" = some tid)
    (hfurl : dictGet task "formUrl" = some furl)
    (out : Dict)
    (hout : interruptHandler client state interruptData = .ok out) :
    (∀ k, k ≠ "human_verification" → dictGet out k = dictGet state k)
    ∧ ∃ record, dictGet out "human_verification" = some (.vObj record)
        ∧ dictGet record "task_id" = some tid
        ∧ dictGet record "form_url" = some furl
        ∧ ((dictGet record "completed" = some (.vBool false)
              ∧ dictGet record "result" = some .vNone)
           ∨ ∃ sub, client.getTaskResult tid = .ok sub
              ∧ dictGet record "completed" = some (.vBool true)
              ∧ dictGet record "result" = some sub) := by
  obtain ⟨hnw, hok, hto, herr⟩ :=
    interruptHandler_cases client state interruptData task tid furl hcreate htid hfurl
  cases hw : (dictGetD interruptData "wait_for_result" (.vBool true)).truthy with
  | false =>
      rw [hnw hw] at hout
      have hout' := Except.ok.inj hout
      subst hout'
      exact ⟨fun k hk => dictGet_dictSet_ne _ _ _ _ hk, pendingRecord tid furl,
        dictGet_dictSet_self _ _ _, by simp [pendingRecord, dictGet],
        by simp [pendingRecord, dictGet],
        Or.inl ⟨by simp [pendingRecord, dictGet], by simp [pendingRecord, dictGet]⟩⟩
  | true =>
      cases hres : client.getTaskResult tid with
      | ok sub =>
          rw [hok sub hw hres] at hout
          have hout' := Except.ok.inj hout
          subst hout'
          exact ⟨fun k hk => dictGet_dictSet_ne _ _ _ _ hk, completedRecord tid furl sub,
            dictGet_dictSet_self _ _ _, by simp [completedRecord, dictGet],
            by simp [completedRecord, dictGet],
            Or.inr ⟨sub, rfl, by simp [completedRecord, dictGet],
              by simp [completedRecord, dictGet]⟩⟩
      | error e =>
          cases e with
          | timeoutError m =>
              rw [hto m hw hres] at hout
              have hout' := Except.ok.inj hout
              subst hout'
              exact ⟨fun k hk => dictGet_dictSet_ne _ _ _ _ hk, pendingRecord tid furl,
                dictGet_dictSet_self _ _ _, by simp [pendingRecord, dictGet],
                by simp [pendingRecord, dictGet],
                Or.inl ⟨by simp [pendingRecord, dictGet], by simp [pendingRecord, dictGet]⟩⟩
          | valueError m =>
              rw [herr _ hw hres (fun m' h => by simp at h)] at hout
              simp at hout
          | connectionError m =>
              rw [herr _ hw hres (fun m' h => by simp at h)] at hout
              simp at hout
          | keyError k =>
              rw [herr _ hw hres (fun m' h => by simp at h)] at hout
              simp at hout
          | attributeError a =>
              rw [herr _ hw hres (fun m' h => by simp at h)] at hout
              simp at hout

/-- Witness for `interruptHandler_state_contract`: the returned state keeps
the input state's other keys. -/
theorem interruptHandler_state_contract_witness :
    dictGet
        [("x", .vInt 7),
         ("human_verification",
          .vObj [("completed", .vBool false), ("task_id", .vStr "tid-1"),
                 ("form_url", .vStr "https://f"), ("result", .vNone)])]
        "x" =
      dictGet [("x", .vInt 7)] "x" :=
  (interruptHandler_state_contract
      { createVerificationTask := fun _ _ _ =>
          .ok [("taskId", .vStr "tid-1"), ("formUrl", .vStr "https://f")],
        createTask := fun _ _ _ =>
          .ok [("taskId", .vStr "tid-2"), ("formUrl", .vStr "https://g")],
        getTaskResult := fun _ => .error (.timeoutError "to") }
      [("x", .vInt 7)]
      [("data", .vObj [("a", .vInt 1)])]
      [("taskId", .vStr "tid-1"), ("formUrl", .vStr "https://f")]
      (.vStr "tid-1") (.vStr "https://f")
      rfl rfl rfl
      [("x", .vInt 7),
       ("human_verification",
        .vObj [("completed", .vBool false), ("task_id", .vStr "tid-1"),
               ("form_url", .vStr "https://f"), ("result", .vNone)])]
      rfl).1 "x" (by simp)

/-- C8: when `wait_for_result` is truthy and the creation call succeeded,
the handler catches exactly the timeout failure kind from the blocking
`get_task_result` call: on a `TimeoutError` it returns the state with the
`human_verification` record still in its pending shape (`completed=False`,
`result=None`) and propagates no exception; on a successful wait it stores
the submission with `completed=True`; every other failure kind propagates
to the caller unchanged. -/
theorem interruptHandler_timeout_downgrade (client : ClientOracle)
    (state interruptData task : Dict) (tid furl : Value)
    (hcreate : handlerCreateCall client interruptData = .ok task)
    (htid : dictGet task "taskId" = some tid)
    (hfurl : dictGet task "formUrl" = some furl)
    (hwait : (dictGetD interruptData "wait_for_result" (.vBool true)).truthy = true) :
    (∀ m, client.getTaskResult tid = .error (.timeoutError m) →
      interruptHandler client state interruptData =
        .ok (dictSet state "human_verification" (.vObj (pendingRecord tid furl))))
    ∧ (∀ sub, client.getTaskResult tid = .ok sub →
      interruptHandler client state interruptData =
        .ok (dictSet state "human_verification" (.vObj (completedRecord tid furl sub))))
    ∧ (∀ e, client.getTaskResult tid = .error e → (∀ m, e ≠ .timeoutError m) →
      interruptHandler client state interruptData = .error e) := by
  obtain ⟨-, hok, hto, herr⟩ :=
    interruptHandler_cases client state interruptData task tid furl hcreate htid hfurl
  exact ⟨fun m hres => hto m hwait hres, fun sub hres => hok sub hwait hres,
    fun e hres hne => herr e hwait hres hne⟩

/-- Witness for `interruptHandler_timeout_downgrade`: a timed-out wait
leaves the pending record and raises nothing. -/
theorem interruptHandler_timeout_downgrade_witness :
    interruptHandler
        { createVerificationTask := fun _ _ _ =>
            .ok [("taskId", .vStr "tid-1"), ("formUrl", .vStr "https://f")],
          createTask := fun _ _ _ =>
            .ok [("taskId", .vStr "tid-2"), ("formUrl", .vStr "https://g")],
          getTaskResult := fun _ => .error (.timeoutError "to") }
        [("x", .vInt 7)]
        [("data", .vObj [("a", .vInt 1)])] =
      .ok (dictSet [("x", .vInt 7)] "human_verification"
        (.vObj (pendingRecord (.vStr "tid-1") (.vStr "https://f")))) :=
  (interruptHandler_timeout_downgrade
      { createVerificationTask := fun _ _ _ =>
          .ok [("taskId", .vStr "tid-1"), ("formUrl", .vStr "https://f")],
        createTask := fun _ _ _ =>
          .ok [("taskId", .vStr "tid-2"), ("formUrl", .vStr "https://g")],
        getTaskResult := fun _ => .error (.timeoutError "to") }
      [("x", .vInt 7)]
      [("data", .vObj [("a", .vInt 1)])]
      [("taskId", .vStr "tid-1"), ("formUrl", .vStr "https://f")]
      (.vStr "tid-1") (.vStr "https://f")
      rfl rfl rfl rfl).1 "to" rfl

end KirokuForms
